import Mathlib

/-!
Shallow embedding of `src/__main__.py` of the json-to-dynamodb repository.

The script has three parts:
* `get_json_data(json_data)`: loads JSON from a URL (when the source string
  starts with "http") or from a file path, returning a parsed list of records;
* `import_data(profile_name, table_name, json_data)`: opens a boto3 session,
  slices the record list into batches of 25, writes each batch inside a
  `with table.batch_writer()` context, prints a success message, and catches
  `(botocore.exceptions.ClientError, requests.exceptions.RequestException)`
  at its top level, printing the error;
* the `__main__` block: argument validation (source must start with "http" or
  end in ".json", otherwise an argparse `ArgumentError` is raised), then
  `get_json_data`, then `import_data`.

External effects (HTTP GET, file read, JSON parsing, session creation,
per-item put outcome) are abstracted as an `Env` of oracles returning
`Except PyExc`; each operation additionally records the `Event`s it performs,
so theorems can speak about which I/O happened and in what order.
-/

namespace JsonToDynamo

/-- JSON values, as produced by the `json` library. -/
inductive JVal where
  | null : JVal
  | bool : Bool → JVal
  | num : Int → JVal
  | str : String → JVal
  | arr : List JVal → JVal
  | obj : List (String × JVal) → JVal

/-- A record: a Python dict — insertion-ordered key/value pairs.  The keys of
an actual dict are pairwise distinct; theorems that need this state it as a
`Nodup` hypothesis. -/
abbrev Record := List (String × JVal)

/-- Python exceptions, at the granularity the script distinguishes them. -/
inductive PyExc where
  /-- `argparse.ArgumentError` raised by the `__main__` validation
  (the spec's `FormatError`). -/
  | argumentError : PyExc
  /-- `requests.exceptions.RequestException`, including the `HTTPError`
  raised by `response.raise_for_status()` (the spec's `FetchError`). -/
  | requestException : PyExc
  /-- `json.JSONDecodeError` from `json.loads` / `json.load`
  (the spec's `ParseError`). -/
  | jsonDecodeError : PyExc
  /-- `botocore.exceptions.ClientError` (missing table, permission denied). -/
  | clientError : PyExc
  /-- a `botocore.exceptions.BotoCoreError` that is not a `ClientError`,
  e.g. `ProfileNotFound` for an unknown profile or
  `EndpointConnectionError` for an unreachable service. -/
  | botoCoreError : PyExc
  /-- `OSError` from `open` on a missing/unreadable file. -/
  | osError : PyExc
deriving DecidableEq, Repr

/-- Stand-in for `str(e)` of an exception. -/
def PyExc.msg : PyExc → String
  | .argumentError => "ArgumentError"
  | .requestException => "RequestException"
  | .jsonDecodeError => "JSONDecodeError"
  | .clientError => "ClientError"
  | .botoCoreError => "BotoCoreError"
  | .osError => "OSError"

/-- Observable events of one run, in program order. -/
inductive Event where
  /-- `requests.get(json_data)` -/
  | httpGet : String → Event
  /-- `open(json_data, 'r')` and reading its contents -/
  | fileRead : String → Event
  /-- `boto3.Session(profile_name=profile_name)` (with `resource('dynamodb')`) -/
  | makeSession : String → Event
  /-- `dynamodb.Table(table_name)` -/
  | bindTable : String → Event
  /-- entering `with table.batch_writer() as batch_writer` -/
  | enterBatch : Event
  /-- `batch_writer.put_item(Item=item)` -/
  | put : Record → Event
  /-- leaving the `with` block: the batch writer flushes on scope exit -/
  | exitBatch : Event
  /-- `print(msg)` -/
  | printed : String → Event

/-- An HTTP response: `response.ok`-style status flag and body. -/
structure Response where
  statusOk : Bool
  content : String

/-- Oracles for the external world: each call either returns a value or
raises a Python exception. -/
structure Env where
  /-- `requests.get url` (raises `RequestException` on network failure). -/
  httpGet : String → Except PyExc Response
  /-- `open(path).read()`. -/
  readFile : String → Except PyExc String
  /-- `json.loads` / `json.load`: parse a string as a JSON array of
  objects (raises `JSONDecodeError` on malformed input). -/
  parseJson : String → Except PyExc (List Record)
  /-- `boto3.Session(profile_name=...)` + `resource` + `Table` resolution. -/
  makeSession : String → Except PyExc Unit
  /-- outcome of `batch_writer.put_item(Item=item)` (including any flush the
  underlying writer performs). -/
  putItem : Record → Except PyExc Unit

/-- Python `s.startswith(p)`: `p` is an initial segment of `s`'s code-point
sequence (a Python `str` is a sequence of code points). -/
def pyStartsWith (s p : String) : Bool := p.data.isPrefixOf s.data

/-- Python `s.endswith(p)`: `p` is a final segment of `s`'s code points. -/
def pyEndsWith (s p : String) : Bool := p.data.isSuffixOf s.data

/-! ## The Loader: `get_json_data` -/

/--
```
def get_json_data(json_data):
  if json_data.startswith("http"):
    response = requests.get(json_data)
    response.raise_for_status()  # Raise error for non-2xx status codes
    return json.loads(response.content)
  else:
    with open(json_data, 'r') as f:
      return json.load(f)
```
-/
def get_json_data (env : Env) (json_data : String) :
    Except PyExc (List Record) × List Event :=
  if pyStartsWith json_data "http" then
    match env.httpGet json_data with
    | .error e => (.error e, [.httpGet json_data])
    | .ok response =>
      if response.statusOk then
        (env.parseJson response.content, [.httpGet json_data])
      else
        (.error .requestException, [.httpGet json_data])
  else
    match env.readFile json_data with
    | .error e => (.error e, [.fileRead json_data])
    | .ok contents => (env.parseJson contents, [.fileRead json_data])

/-! ## Batching -/

/-- `batch_size = 25` -/
def batch_size : Nat := 25

/-- Python `range(start, stop, step)` for a positive step. -/
def pyRange (start stop step : Nat) : List Nat :=
  if _h : 0 < step ∧ start < stop then
    start :: pyRange (start + step) stop step
  else
    []
termination_by stop - start
decreasing_by omega

/-- Python list slice `l[i:j]` for `0 ≤ i ≤ j`. -/
def pySlice (l : List α) (i j : Nat) : List α := (l.drop i).take (j - i)

/-- `batches = [json_data[i:i+batch_size] for i in range(0, len(json_data), batch_size)]` -/
def pyBatches (l : List α) : List (List α) :=
  (pyRange 0 l.length batch_size).map (fun i => pySlice l i (i + batch_size))

/-! ## Record conversion -/

/-- One Python dict insertion `d[k] = v`: an existing key keeps its position
and gets the new value; a new key is appended. -/
def dictInsert (d : List (String × JVal)) (k : String) (v : JVal) :
    List (String × JVal) :=
  if d.any (fun kv => kv.1 == k) then
    d.map (fun kv => if kv.1 == k then (k, v) else kv)
  else
    d ++ [(k, v)]

/-- A dict built from a sequence of key/value pairs by repeated insertion —
the meaning of a dict comprehension over those pairs. -/
def dictFromPairs (ps : List (String × JVal)) : List (String × JVal) :=
  ps.foldl (fun d kv => dictInsert d kv.1 kv.2) []

/-- `{k: v for k, v in item.items()}` — the per-item conversion inside
`items = [{k: v for k, v in item.items()} for item in batch]`. -/
def convertItem (item : Record) : Record := dictFromPairs item

/-! ## The Importer: `import_data` -/

/-- `for item in items: batch_writer.put_item(Item=item)` — the body of one
`with` block.  Each attempted put is recorded; an exception aborts the loop. -/
def putLoop (env : Env) : List Record → Except PyExc Unit × List Event
  | [] => (.ok (), [])
  | item :: rest =>
    match env.putItem item with
    | .error e => (.error e, [.put item])
    | .ok () =>
      let r := putLoop env rest
      (r.1, .put item :: r.2)

/-- `with table.batch_writer() as batch_writer: ...` — the context is entered,
the puts run, and the context is released on scope exit even when the body
raises (Python `with` semantics). -/
def writeBatch (env : Env) (items : List Record) :
    Except PyExc Unit × List Event :=
  let r := putLoop env items
  (r.1, .enterBatch :: r.2 ++ [.exitBatch])

/-- `for batch in batches: items = [...]; with table.batch_writer() ...` -/
def batchLoop (env : Env) : List (List Record) → Except PyExc Unit × List Event
  | [] => (.ok (), [])
  | batch :: rest =>
    let items := batch.map convertItem
    let r := writeBatch env items
    match r.1 with
    | .error e => (.error e, r.2)
    | .ok () =>
      let r2 := batchLoop env rest
      (r2.1, r.2 ++ r2.2)

/-- `f"Successfully imported {len(json_data)} items into table {table_name}"` -/
def successMsg (n : Nat) (table_name : String) : String :=
  "Successfully imported " ++ toString n ++ " items into table " ++ table_name

/-- `f"Error: {e}"` -/
def errorMsg (e : PyExc) : String := "Error: " ++ e.msg

/-- The exception kinds matched by
`except (boto3.exceptions. botocore.exceptions.ClientError,
         requests.exceptions.RequestException)` —
i.e. `botocore.exceptions.ClientError` and
`requests.exceptions.RequestException`. -/
def caughtKind : PyExc → Bool
  | .clientError => true
  | .requestException => true
  | _ => false

/-- The `try` body of `import_data`: session/table setup, batching, the write
loop, and the success print.  The value position models the Python return
value: `none` is Python's implicit `None` (the function has no `return`). -/
def tryBody (env : Env) (profile_name table_name : String)
    (json_data : List Record) : Except PyExc (Option Nat) × List Event :=
  match env.makeSession profile_name with
  | .error e => (.error e, [.makeSession profile_name])
  | .ok () =>
    let setup : List Event := [.makeSession profile_name, .bindTable table_name]
    let batches := pyBatches json_data
    let r := batchLoop env batches
    match r.1 with
    | .error e => (.error e, setup ++ r.2)
    | .ok () =>
      (.ok none,
        setup ++ r.2 ++ [.printed (successMsg json_data.length table_name)])

/--
```
def import_data(profile_name, table_name, json_data):
  try:
    ...
  except (boto3.exceptions. botocore.exceptions.ClientError,
          requests.exceptions.RequestException) as e:
    print(f"Error: {e}")
```
A caught exception is printed and the function falls off the end, returning
`None`; any other exception propagates. -/
def import_data (env : Env) (profile_name table_name : String)
    (json_data : List Record) : Except PyExc (Option Nat) × List Event :=
  let r := tryBody env profile_name table_name json_data
  match r.1 with
  | .ok v => (.ok v, r.2)
  | .error e =>
    if caughtKind e then (.ok none, r.2 ++ [.printed (errorMsg e)])
    else (.error e, r.2)

/-! ## The `__main__` block -/

/-- The validation check of the `__main__` block:
`args.json_data.startswith("http") or args.json_data.endswith(".json")`. -/
def validFormat (json_data : String) : Bool :=
  pyStartsWith json_data "http" || pyEndsWith json_data ".json"

/--
```
if not (args.json_data.startswith("http") or args.json_data.endswith(".json")):
  raise ArgumentError("json_data", "Invalid JSON data format. ...")
json_data = get_json_data(args.json_data)
 import_data(args.profile_name, args.table_name, json_data)
```
(The `raise ArgumentError(...)` with a string first argument in fact dies with
an `AttributeError` inside `ArgumentError.__init__`; either way an exception
is raised before any I/O, which is what `.argumentError` stands for here.)
There is no handler in `__main__`: whatever `get_json_data` raises propagates
out of the program. -/
def mainRun (env : Env) (profile_name table_name json_data_arg : String) :
    Except PyExc (Option Nat) × List Event :=
  if validFormat json_data_arg then
    let r := get_json_data env json_data_arg
    match r.1 with
    | .error e => (.error e, r.2)
    | .ok records =>
      let r2 := import_data env profile_name table_name records
      (r2.1, r.2 ++ r2.2)
  else
    (.error .argumentError, [])

/-! ## Derived trace shapes and concrete test fixtures -/

/-- The event trace of the write loop on a successful run: one scoped
batch-write context per chunk, in chunk order, with one put per (converted)
record inside it, in record order, and the context released after its puts. -/
def batchTrace (records : List Record) : List Event :=
  ((pyBatches records).map
    (fun batch =>
      Event.enterBatch :: (batch.map convertItem).map Event.put
        ++ [Event.exitBatch])).flatten

/-- An environment in which every external call succeeds and every parse
returns `records`. -/
def envOk (records : List Record) : Env where
  httpGet _ := .ok ⟨true, "[]"⟩
  readFile _ := .ok "[]"
  parseJson _ := .ok records
  makeSession _ := .ok ()
  putItem _ := .ok ()

/-- An environment whose HTTP GET returns a non-success status. -/
def envBadStatus : Env :=
  { envOk [] with httpGet := fun _ => .ok ⟨false, ""⟩ }

/-- An environment in which every `put_item` raises
`botocore.exceptions.ClientError`. -/
def envPutFail : Env :=
  { envOk [] with putItem := fun _ => .error .clientError }

/-- An environment in which session resolution raises a
`BotoCoreError` — e.g. `ProfileNotFound` for an unknown profile, which is
not a `ClientError`. -/
def envProfileFail : Env :=
  { envOk [] with makeSession := fun _ => .error .botoCoreError }

/-- The record `{"id": 1}`. -/
def rec1 : Record := [("id", JVal.num 1)]

/-- The record `{"id": 2}`. -/
def rec2 : Record := [("id", JVal.num 2)]

/-- An environment holding a file `data.json` whose contents parse to
`[{"id": 1}, {"id": 2}]`. -/
def envFile : Env :=
  { envOk [rec1, rec2] with
    readFile := fun _ => .ok "[\x7b\"id\": 1\x7d, \x7b\"id\": 2\x7d]" }

/-! ## Lemmas about batching -/

theorem pyRange_stop (start stop step : Nat) (h : ¬(0 < step ∧ start < stop)) :
    pyRange start stop step = [] := by
  rw [pyRange]; simp [h]

theorem pyRange_step (start stop step : Nat) (h : 0 < step ∧ start < stop) :
    pyRange start stop step = start :: pyRange (start + step) stop step := by
  rw [pyRange]; simp [h]

theorem pyRange_shift (k : Nat) (hk : 0 < k) :
    ∀ (m s n : Nat), n - s ≤ m →
      pyRange (s + k) n k = (pyRange s (n - k) k).map (fun x => x + k) := by
  intro m
  induction m with
  | zero =>
    intro s n h
    rw [pyRange_stop _ _ _ (by omega), pyRange_stop _ _ _ (by omega)]
    rfl
  | succ m ih =>
    intro s n h
    by_cases hc : s + k < n
    · rw [pyRange_step (s + k) n k ⟨hk, hc⟩,
        pyRange_step s (n - k) k ⟨hk, by omega⟩]
      simp only [List.map_cons]
      exact congrArg _ (ih (s + k) n (by omega))
    · rw [pyRange_stop _ _ _ (by omega), pyRange_stop _ _ _ (by omega)]
      rfl

theorem pyBatches_nil : pyBatches ([] : List α) = [] := by
  simp [pyBatches, batch_size, pyRange_stop]

theorem pySlice_shift (l : List α) (i : Nat) :
    pySlice l (i + 25) (i + 25 + 25) = pySlice (l.drop 25) i (i + 25) := by
  simp only [pySlice, List.drop_drop]
  rw [(by omega : i + 25 + 25 - (i + 25) = 25), (by omega : i + 25 - i = 25),
    (by omega : 25 + i = i + 25)]

theorem pyBatches_cons (l : List α) (h : l ≠ []) :
    pyBatches l = l.take 25 :: pyBatches (l.drop 25) := by
  have hlen : 0 < l.length := List.length_pos.mpr h
  unfold pyBatches
  simp only [batch_size]
  rw [pyRange_step 0 l.length 25 ⟨by omega, hlen⟩]
  rw [pyRange_shift 25 (by omega) l.length 0 l.length (by omega),
    List.map_cons, List.map_map]
  congr 1
  rw [List.length_drop]
  apply List.map_congr_left
  intro i _
  simp only [Function.comp_apply]
  exact pySlice_shift l i

theorem pyBatches_flatten_aux :
    ∀ (n : Nat) (l : List α), l.length ≤ n → (pyBatches l).flatten = l := by
  intro n
  induction n with
  | zero =>
    intro l h
    have h0 : l = [] := List.eq_nil_of_length_eq_zero (by omega)
    subst h0; simp [pyBatches_nil]
  | succ n ih =>
    intro l h
    rcases eq_or_ne l [] with rfl | hne
    · simp [pyBatches_nil]
    · rw [pyBatches_cons l hne]
      simp only [List.flatten_cons]
      rw [ih (l.drop 25) (by simp [List.length_drop]; omega)]
      exact List.take_append_drop 25 l

theorem pyBatches_length_aux :
    ∀ (n : Nat) (l : List α), l.length ≤ n →
      (pyBatches l).length = (l.length + 24) / 25 := by
  intro n
  induction n with
  | zero =>
    intro l h
    have h0 : l = [] := List.eq_nil_of_length_eq_zero (by omega)
    subst h0; simp [pyBatches_nil]
  | succ n ih =>
    intro l h
    rcases eq_or_ne l [] with rfl | hne
    · simp [pyBatches_nil]
    · have hlen : 0 < l.length := List.length_pos.mpr hne
      rw [pyBatches_cons l hne]
      rw [List.length_cons, ih (l.drop 25) (by simp [List.length_drop]; omega)]
      simp only [List.length_drop]
      omega

theorem pyBatches_le (l : List α) : ∀ b ∈ pyBatches l, b.length ≤ 25 := by
  intro b hb
  unfold pyBatches at hb
  simp only [List.mem_map] at hb
  obtain ⟨i, _, rfl⟩ := hb
  simp only [pySlice, batch_size, List.length_take, List.length_drop]
  omega

theorem pyBatches_map_length_30 (l : List α) (h : l.length = 30) :
    (pyBatches l).map List.length = [25, 5] := by
  have h1 : l ≠ [] := by
    intro e; subst e; simp at h
  rw [pyBatches_cons l h1]
  have h2 : l.drop 25 ≠ [] := by
    intro e
    have h2a := congrArg List.length e
    simp [h] at h2a
  rw [pyBatches_cons _ h2]
  have h3 : (l.drop 25).drop 25 = [] := by
    apply List.eq_nil_of_length_eq_zero
    simp [h]
  rw [h3, pyBatches_nil]
  simp [h]

theorem pyBatches_singleton (a : α) : pyBatches [a] = [[a]] := by
  rw [pyBatches_cons [a] (by simp)]
  simp [pyBatches_nil]

/-! ## Lemmas about dict construction -/

theorem dictInsert_new (d : List (String × JVal)) (k : String) (v : JVal)
    (h : ∀ kv ∈ d, kv.1 ≠ k) : dictInsert d k v = d ++ [(k, v)] := by
  have ha : d.any (fun kv => kv.1 == k) = false := by
    simp only [List.any_eq_false, beq_iff_eq]
    intro kv hkv
    exact h kv hkv
  simp [dictInsert, ha]

theorem foldl_dictInsert (ps : List (String × JVal)) :
    ∀ d : List (String × JVal),
      (∀ kv ∈ ps, ∀ kv2 ∈ d, kv2.1 ≠ kv.1) → (ps.map Prod.fst).Nodup →
      ps.foldl (fun d kv => dictInsert d kv.1 kv.2) d = d ++ ps := by
  induction ps with
  | nil => intro d _ _; simp
  | cons kv rest ih =>
    intro d hdisj hnodup
    simp only [List.map_cons, List.nodup_cons] at hnodup
    simp only [List.foldl_cons]
    rw [dictInsert_new d kv.1 kv.2
      (fun kv2 h2 => hdisj kv (by simp) kv2 h2)]
    rw [ih (d ++ [(kv.1, kv.2)]) ?_ hnodup.2]
    · simp
    · intro kvr hr kv2 h2
      rcases List.mem_append.mp h2 with h2 | h2
      · exact hdisj kvr (List.mem_cons_of_mem kv hr) kv2 h2
      · simp only [List.mem_singleton] at h2
        subst h2
        intro heq
        refine hnodup.1 ?_
        rw [heq]
        exact List.mem_map_of_mem Prod.fst hr

theorem convertItem_of_nodup (item : Record)
    (h : (item.map Prod.fst).Nodup) : convertItem item = item := by
  unfold convertItem dictFromPairs
  rw [foldl_dictInsert item [] (by simp) h]
  simp

/-! ## Lemmas about the write loop and `import_data` -/

theorem putLoop_ok (env : Env) (h : ∀ r, env.putItem r = .ok ()) :
    ∀ items, putLoop env items = (.ok (), items.map Event.put) := by
  intro items
  induction items with
  | nil => rfl
  | cons item rest ih => simp [putLoop, h item, ih]

theorem writeBatch_ok (env : Env) (h : ∀ r, env.putItem r = .ok ())
    (items : List Record) :
    writeBatch env items
      = (.ok (), .enterBatch :: items.map Event.put ++ [.exitBatch]) := by
  simp [writeBatch, putLoop_ok env h]

theorem batchLoop_ok (env : Env) (h : ∀ r, env.putItem r = .ok ()) :
    ∀ bs : List (List Record),
      batchLoop env bs
        = (.ok (),
           (bs.map (fun b => Event.enterBatch ::
              (b.map convertItem).map Event.put ++ [Event.exitBatch])).flatten) := by
  intro bs
  induction bs with
  | nil => rfl
  | cons b rest ih => simp [batchLoop, writeBatch_ok env h, ih]

theorem import_data_ok (env : Env) (profile table : String)
    (records : List Record)
    (hs : env.makeSession profile = .ok ())
    (hp : ∀ r, env.putItem r = .ok ()) :
    import_data env profile table records
      = (.ok none,
         [.makeSession profile, .bindTable table]
           ++ batchTrace records
           ++ [.printed (successMsg records.length table)]) := by
  have ht : tryBody env profile table records
      = (.ok none,
         [.makeSession profile, .bindTable table]
           ++ batchTrace records
           ++ [.printed (successMsg records.length table)]) := by
    simp [tryBody, hs, batchLoop_ok env hp, batchTrace]
  simp [import_data, ht]

/-! ## The claims -/

/-- C1: the Importer partitions any input list into consecutive chunks of at
most 25 records each, preserving order: the number of batches is
`ceil(N/25) = (N + 24) / 25`, concatenating the batches reproduces the input
exactly (so no record is duplicated or dropped), and an input of 30 records
yields exactly 2 batches, of sizes 25 and 5. -/
theorem c1_batch_partition :
    (∀ (records : List Record),
      (pyBatches records).length = (records.length + 24) / 25 ∧
      (pyBatches records).flatten = records ∧
      ∀ b ∈ pyBatches records, b.length ≤ 25) ∧
    (∀ (records : List Record), records.length = 30 →
      (pyBatches records).map List.length = [25, 5]) := by
  constructor
  · intro records
    exact ⟨pyBatches_length_aux records.length records le_rfl,
      pyBatches_flatten_aux records.length records le_rfl,
      pyBatches_le records⟩
  · intro records h
    exact pyBatches_map_length_30 records h

/-- Witness for C1 at a concrete input of 30 records. -/
theorem c1_batch_partition_witness :
    (pyBatches (List.replicate 30 rec1)).map List.length = [25, 5] :=
  c1_batch_partition.2 (List.replicate 30 rec1) (by simp)

/-- C5: a source string that neither starts with "http" nor ends in ".json"
makes the program fail with the format error before any I/O: the run raises
`.argumentError` with an empty event trace (no network call, no file read,
no table access). -/
theorem c5_format_error_before_io :
    ∀ (env : Env) (profile table source : String),
      pyStartsWith source "http" = false →
      pyEndsWith source ".json" = false →
      mainRun env profile table source = (.error .argumentError, []) := by
  intro env profile table source h1 h2
  simp [mainRun, validFormat, h1, h2]

/-- Witness for C5 at the concrete source string "data.csv". -/
theorem c5_format_error_before_io_witness :
    mainRun (envOk []) "default" "mytable" "data.csv"
      = (.error .argumentError, []) :=
  c5_format_error_before_io (envOk []) "default" "mytable" "data.csv"
    (by decide) (by decide)

/-- C7: importing an empty record list performs zero batch submissions
(the trace holds no batch-context or put event), reports a count of zero
records, and completes without error (a normal return). -/
theorem c7_empty_import :
    ∀ (env : Env) (profile table : String),
      env.makeSession profile = .ok () →
      import_data env profile table []
        = (.ok none,
           [.makeSession profile, .bindTable table,
            .printed (successMsg 0 table)]) := by
  intro env profile table hs
  simp [import_data, tryBody, hs, pyBatches_nil, batchLoop]

/-- Witness for C7 in a fully concrete environment. -/
theorem c7_empty_import_witness :
    import_data (envOk []) "default" "mytable" []
      = (.ok none,
         [.makeSession "default", .bindTable "mytable",
          .printed (successMsg 0 "mytable")]) :=
  c7_empty_import (envOk []) "default" "mytable" rfl

/-- C9: the per-item conversion `{k: v for k, v in item.items()}` is the
identity on dicts — every key and value of each input record is passed
through unmodified, so the converted batch equals the input batch. -/
theorem c9_conversion_identity :
    ∀ (batch : List Record),
      (∀ item ∈ batch, (item.map Prod.fst).Nodup) →
      batch.map convertItem = batch := by
  intro batch h
  induction batch with
  | nil => rfl
  | cons item rest ih =>
    rw [List.map_cons,
      convertItem_of_nodup item (h item (by simp)),
      ih (fun i hi => h i (List.mem_cons_of_mem item hi))]

/-- Witness for C9 at the concrete batch `[{"id":1}, {"id":2}]`. -/
theorem c9_conversion_identity_witness :
    [rec1, rec2].map convertItem = [rec1, rec2] := by
  apply c9_conversion_identity
  intro item hi
  simp only [List.mem_cons, List.mem_singleton, List.not_mem_nil, or_false] at hi
  rcases hi with rfl | rfl <;> simp [rec1, rec2]

/-- C3: for every source string beginning with "http", the Loader performs an
HTTP GET to that exact URL (and nothing else); if the response status is not
successful the load fails with the `FetchError` (`requestException`) and the
whole run stops there — the Importer is never invoked, the program's trace
being exactly the one GET; otherwise the Loader returns the response body
parsed as JSON. -/
theorem c3_loader_http :
    ∀ (env : Env) (profile table source : String),
      pyStartsWith source "http" = true →
      ((get_json_data env source).2 = [.httpGet source]) ∧
      (∀ resp : Response, env.httpGet source = .ok resp →
        (resp.statusOk = false →
          (get_json_data env source).1 = .error .requestException ∧
          mainRun env profile table source
            = (.error .requestException, [.httpGet source])) ∧
        (resp.statusOk = true →
          (get_json_data env source).1 = env.parseJson resp.content)) := by
  intro env profile table source h
  have hval : validFormat source = true := by simp [validFormat, h]
  constructor
  · rcases hg : env.httpGet source with e | resp
    · simp [get_json_data, h, hg]
    · rcases hst : resp.statusOk <;> simp [get_json_data, h, hg, hst]
  · intro resp hresp
    constructor
    · intro hst
      have h1 : (get_json_data env source).1 = .error .requestException := by
        simp [get_json_data, h, hresp, hst]
      have h2 : (get_json_data env source).2 = [.httpGet source] := by
        simp [get_json_data, h, hresp, hst]
      refine ⟨h1, ?_⟩
      simp [mainRun, hval, h1, h2]
    · intro hst
      simp [get_json_data, h, hresp, hst]

/-- Witness for C3: a non-2xx response on a concrete URL propagates the
fetch error and the Importer never runs. -/
theorem c3_loader_http_witness :
    (get_json_data envBadStatus "https://example.com/data.json").1
        = .error .requestException ∧
    mainRun envBadStatus "default" "mytable" "https://example.com/data.json"
        = (.error .requestException,
           [.httpGet "https://example.com/data.json"]) := by
  have h := (c3_loader_http envBadStatus "default" "mytable"
    "https://example.com/data.json" (by decide)).2 ⟨false, ""⟩ rfl
  exact (h.1 rfl)

/-- C8: for every source string not beginning with "http", the Loader treats
it as a file path: the trace is exactly one read of that file, and the result
is the file's full contents parsed as JSON (hence element order is whatever
the parse returns). -/
theorem c8_loader_file :
    ∀ (env : Env) (source : String),
      pyStartsWith source "http" = false →
      ((get_json_data env source).2 = [.fileRead source]) ∧
      (∀ contents, env.readFile source = .ok contents →
        (get_json_data env source).1 = env.parseJson contents) := by
  intro env source h
  constructor
  · rcases hr : env.readFile source with e | c <;> simp [get_json_data, h, hr]
  · intro c hr
    simp [get_json_data, h, hr]

/-- Witness for C8: a file "data.json" whose contents parse to
`[{"id": 1}, {"id": 2}]` loads to that two-element list in that order. -/
theorem c8_loader_file_witness :
    (get_json_data envFile "data.json").1 = .ok [rec1, rec2] ∧
    (get_json_data envFile "data.json").2 = [.fileRead "data.json"] := by
  have h := c8_loader_file envFile "data.json" (by decide)
  refine ⟨?_, h.1⟩
  rw [h.2 "[\x7b\"id\": 1\x7d, \x7b\"id\": 2\x7d]" rfl]
  rfl

/-- C10: the URL-versus-file decision depends solely on the "http" prefix:
every http-prefixed source — including the local-looking path
"httpdata.json", which also passes the CLI ".json" validation — makes the
Loader issue exactly one HTTP GET and never read a file. -/
theorem c10_decision_by_http_only :
    (∀ (env : Env) (source : String), pyStartsWith source "http" = true →
      (get_json_data env source).2 = [.httpGet source] ∧
      ∀ path, Event.fileRead path ∉ (get_json_data env source).2) ∧
    (∀ env : Env,
      validFormat "httpdata.json" = true ∧
      (get_json_data env "httpdata.json").2 = [.httpGet "httpdata.json"]) := by
  have hgen : ∀ (env : Env) (source : String),
      pyStartsWith source "http" = true →
      (get_json_data env source).2 = [.httpGet source] := by
    intro env source h
    rcases hg : env.httpGet source with e | resp
    · simp [get_json_data, h, hg]
    · rcases hst : resp.statusOk <;> simp [get_json_data, h, hg, hst]
  constructor
  · intro env source h
    refine ⟨hgen env source h, ?_⟩
    intro path hmem
    rw [hgen env source h] at hmem
    simp at hmem
  · intro env
    exact ⟨by decide, hgen env "httpdata.json" (by decide)⟩

/-- Witness for C10 at the concrete source "httpdata.json". -/
theorem c10_decision_by_http_only_witness :
    (get_json_data (envOk []) "httpdata.json").2 = [.httpGet "httpdata.json"] :=
  (c10_decision_by_http_only.1 (envOk []) "httpdata.json" (by decide)).1

/-- C6: for every chunk the Importer opens one scoped batch-write context,
issues exactly one put per (converted) record of the chunk in the chunk's
order, and all puts of a chunk appear before that chunk's context release;
chunks are processed in order, one context per chunk — the whole trace is
`batchTrace records` between setup and the success print. -/
theorem c6_scoped_batch_contexts :
    ∀ (env : Env) (profile table : String) (records : List Record),
      env.makeSession profile = .ok () →
      (∀ r, env.putItem r = .ok ()) →
      (import_data env profile table records).2
        = [.makeSession profile, .bindTable table]
            ++ batchTrace records
            ++ [.printed (successMsg records.length table)] := by
  intro env profile table records hs hp
  rw [import_data_ok env profile table records hs hp]

/-- Witness for C6: the concrete two-record import produces one context
enclosing the two puts in order. -/
theorem c6_scoped_batch_contexts_witness :
    (import_data (envOk []) "default" "mytable" [rec1, rec2]).2
      = [.makeSession "default", .bindTable "mytable",
         .enterBatch, .put rec1, .put rec2, .exitBatch,
         .printed (successMsg 2 "mytable")] := by
  have h := c6_scoped_batch_contexts (envOk []) "default" "mytable"
    [rec1, rec2] rfl (fun _ => rfl)
  rw [h]
  have hb : pyBatches [rec1, rec2] = [[rec1, rec2]] := by
    rw [pyBatches_cons _ (by simp),
      List.take_of_length_le (by simp),
      List.drop_eq_nil_of_le (by simp), pyBatches_nil]
  have h1 : convertItem rec1 = rec1 := convertItem_of_nodup rec1 (by simp [rec1])
  have h2 : convertItem rec2 = rec2 := convertItem_of_nodup rec2 (by simp [rec2])
  simp [batchTrace, hb, h1, h2]

/-- C4 is refuted at a concrete input: `import_data` has no `return`
statement, so it returns Python's `None` — not the count of written
records (here the count would be `0`). -/
theorem c4_counterexample :
    (import_data (envOk []) "default" "mytable" []).1 ≠ .ok (some 0) ∧
    (import_data (envOk []) "default" "mytable" []).1 = .ok none := by
  rw [import_data_ok (envOk []) "default" "mytable" [] rfl (fun _ => rfl)]
  constructor <;> simp

/-- C4 amended: on a completed import the operation returns `None` (not a
count), and its last observable action is printing the success message
carrying the count of records. -/
theorem c4_amended_prints_count :
    ∀ (env : Env) (profile table : String) (records : List Record),
      env.makeSession profile = .ok () →
      (∀ r, env.putItem r = .ok ()) →
      (import_data env profile table records).1 = .ok none ∧
      (import_data env profile table records).2.getLast?
        = some (.printed (successMsg records.length table)) := by
  intro env profile table records hs hp
  rw [import_data_ok env profile table records hs hp]
  refine ⟨rfl, ?_⟩
  show ([Event.makeSession profile, Event.bindTable table]
      ++ batchTrace records
      ++ [Event.printed (successMsg records.length table)]).getLast?
    = some (Event.printed (successMsg records.length table))
  rw [List.getLast?_concat]

/-- Witness for C4's amended form in a concrete environment. -/
theorem c4_amended_prints_count_witness :
    (import_data (envOk []) "default" "mytable" [rec1]).1 = .ok none ∧
    (import_data (envOk []) "default" "mytable" [rec1]).2.getLast?
      = some (.printed (successMsg 1 "mytable")) := by
  have h := c4_amended_prints_count (envOk []) "default" "mytable" [rec1]
    rfl (fun _ => rfl)
  simpa using h

/-- C2 is refuted at two concrete inputs.  First, a fetch failure
(non-success HTTP status) is raised inside `get_json_data`, before
`import_data` and its `try` block run, so the `FetchError` propagates out
of the program with nothing printed — the trace holds only the GET.
Second, an access failure of the unknown-profile kind, raised inside
the import step's `try` body, is a `BotoCoreError`, not a `ClientError`,
so the `except` clause does not match it: it propagates out of
`import_data` with nothing printed rather than being caught. -/
theorem c2_counterexample :
    (mainRun envBadStatus "default" "mytable" "http://example.com/data.json"
      = (.error .requestException,
         [.httpGet "http://example.com/data.json"])) ∧
    (import_data envProfileFail "default" "mytable" [rec1]
      = (.error .botoCoreError, [.makeSession "default"])) := by
  constructor
  · have h : pyStartsWith "http://example.com/data.json" "http" = true := by
      decide
    have hval : validFormat "http://example.com/data.json" = true := by
      simp [validFormat, h]
    have h1 : get_json_data envBadStatus "http://example.com/data.json"
        = (.error .requestException,
           [.httpGet "http://example.com/data.json"]) := by
      simp [get_json_data, h, envBadStatus, envOk]
    simp [mainRun, hval, h1]
  · simp [import_data, tryBody, envProfileFail, envOk, caughtKind]

/-- C2 amended: an error of kind `ClientError` or `RequestException` raised
inside the import step's `try` body is caught there and printed, and
`import_data` returns normally; an error of any other kind raised inside
the `try` body — e.g. the `BotoCoreError` surfacing an unknown profile —
is not caught: `import_data` propagates it with nothing printed (and,
conversely, a caught kind never escapes); errors raised by the loading
step — `FetchError`, `ParseError`, file errors — occur before the import
step's `try` block runs and propagate out of the program uncaught. -/
theorem c2_amended_error_scope :
    ∀ (env : Env) (profile table source : String) (records : List Record)
      (e : PyExc),
      ((import_data env profile table records).1 = .error e →
        caughtKind e = false) ∧
      ((tryBody env profile table records).1 = .error e →
        caughtKind e = true →
        import_data env profile table records
          = (.ok none,
             (tryBody env profile table records).2
               ++ [.printed (errorMsg e)])) ∧
      ((tryBody env profile table records).1 = .error e →
        caughtKind e = false →
        import_data env profile table records
          = (.error e, (tryBody env profile table records).2)) ∧
      (validFormat source = true →
        (get_json_data env source).1 = .error e →
        mainRun env profile table source
          = (.error e, (get_json_data env source).2)) := by
  intro env profile table source records e
  refine ⟨?_, ?_, ?_, ?_⟩
  · intro h
    rcases htb : (tryBody env profile table records).1 with e2 | v
    · by_cases hc : caughtKind e2 = true
      · simp [import_data, htb, hc] at h
      · have he : e2 = e := by simpa [import_data, htb, hc] using h
        subst he
        exact Bool.eq_false_iff.mpr hc
    · simp [import_data, htb] at h
  · intro htb hc
    simp [import_data, htb, hc]
  · intro htb hc
    simp [import_data, htb, hc]
  · intro hval hget
    simp [mainRun, hval, hget]

/-- Witness for C2's amended form: a `ClientError` raised by a put inside
the import step is caught and printed, while a `BotoCoreError` from session
resolution inside the same `try` body propagates out of `import_data`. -/
theorem c2_amended_error_scope_witness :
    (import_data envPutFail "default" "mytable" [rec1]
      = (.ok none,
         (tryBody envPutFail "default" "mytable" [rec1]).2
           ++ [.printed (errorMsg .clientError)])) ∧
    (import_data envProfileFail "default" "mytable" [rec1]
      = (.error .botoCoreError,
         (tryBody envProfileFail "default" "mytable" [rec1]).2)) := by
  constructor
  · apply (c2_amended_error_scope envPutFail "default" "mytable" "x" [rec1]
      .clientError).2.1
    · have hb : pyBatches [rec1] = [[rec1]] := pyBatches_singleton rec1
      simp [tryBody, envPutFail, envOk, hb, batchLoop, writeBatch, putLoop]
    · rfl
  · apply (c2_amended_error_scope envProfileFail "default" "mytable" "x"
      [rec1] .botoCoreError).2.2.1
    · simp [tryBody, envProfileFail, envOk]
    · rfl

end JsonToDynamo
